import Mathlib

/-!
# Verification of the ACE temporal curator core

A shallow embedding of `src/ace/temporal_bullet.py` and
`src/ace/temporal_curator.py`.

Modelling choices:

* Python `datetime` values are modelled by `PyDateTime`, a record of calendar
  components at second resolution.  Subtraction of datetimes goes through the
  standard civil-calendar day-number algorithm (as the Python `datetime`
  library does), and `timedelta.days` is floor division of the difference in
  seconds by 86400, exactly as in CPython.
* Python objects are mutable and aliasable: `TemporalCurator` state is
  modelled as a heap (`store : List TemporalBullet`) together with lists of
  references (`playbook`, `archive : List Nat`).  Mutating a bullet in place
  becomes updating the store at a reference; Python `is`-identity becomes
  reference equality, and Python dataclass `==` becomes structural equality
  of the stored values.
* Python floats are idealised as real numbers; `math.exp` is `Real.exp`.
  Scores are therefore `noncomputable`, while all structural operations
  (merge, serialization, datetime arithmetic) are computable.
* The per-instance dataclass configuration fields `RECENCY_DECAY_RATE = 0.1`
  and `FREQUENCY_WINDOW_DAYS = 30` are modelled as the literal constants the
  source never overrides.
-/

/-- A Python `datetime` at second resolution (the `microsecond` component,
which the source never sets to a nonzero value through its own operations,
is omitted). -/
structure PyDateTime where
  year : Nat
  month : Nat
  day : Nat
  hour : Nat
  minute : Nat
  second : Nat
deriving DecidableEq, Repr

/-- Day number of a civil date relative to 1970-01-01 (Howard Hinnant's
`days_from_civil` algorithm, the same computation CPython's `datetime`
performs via its proleptic-Gregorian ordinal). -/
def daysFromCivil (y m d : Int) : Int :=
  let y' : Int := if m ≤ 2 then y - 1 else y
  let era : Int := y'.fdiv 400
  let yoe : Int := y' - era * 400
  let mp : Int := if m ≤ 2 then m + 9 else m - 3
  let doy : Int := (153 * mp + 2).fdiv 5 + d - 1
  let doe : Int := yoe * 365 + yoe.fdiv 4 - yoe.fdiv 100 + doy
  era * 146097 + doe - 719468

/-- Seconds since the epoch of a `PyDateTime`. -/
def PyDateTime.toEpochSeconds (t : PyDateTime) : Int :=
  86400 * daysFromCivil t.year t.month t.day
    + 3600 * t.hour + 60 * t.minute + t.second

/-- `(t - s).days` for Python datetimes: the timedelta's whole-day component,
i.e. floor division of the difference in seconds by 86400. -/
def daysBetween (t s : PyDateTime) : Int :=
  (t.toEpochSeconds - s.toEpochSeconds).fdiv 86400

/-- The `TemporalBullet` dataclass of `temporal_bullet.py`. -/
structure TemporalBullet where
  id : String
  content : String
  bullet_type : String
  helpful_count : Int
  harmful_count : Int
  created_at : PyDateTime
  last_used_at : PyDateTime
  usage_timeline : List PyDateTime
  task_types_used : List String
deriving DecidableEq, Repr

def epochDT : PyDateTime := ⟨1970, 1, 1, 0, 0, 0⟩

instance : Inhabited TemporalBullet :=
  ⟨⟨"", "", "", 0, 0, epochDT, epochDT, [], []⟩⟩

namespace TemporalBullet

/-- `TemporalBullet.recency_score`: `exp(-RECENCY_DECAY_RATE * days_since_use)`
with `days_since_use = (current_time - last_used_at).days`. -/
noncomputable def recency_score (b : TemporalBullet) (current_time : PyDateTime) : ℝ :=
  Real.exp (-(0.1 : ℝ) * ((daysBetween current_time b.last_used_at : Int) : ℝ))

/-- `TemporalBullet.frequency_score`: the number of timeline entries `u` with
`(current_time - u).days <= 30`, divided by the fixed window length 30. -/
noncomputable def frequency_score (b : TemporalBullet) (current_time : PyDateTime) : ℝ :=
  ((b.usage_timeline.filter (fun u => daysBetween current_time u ≤ 30)).length : ℝ) / 30

/-- `TemporalBullet.utility_score`: `float(helpful_count - harmful_count)`. -/
def utility_score (b : TemporalBullet) : ℝ :=
  ((b.helpful_count - b.harmful_count : Int) : ℝ)

/-- `TemporalBullet.relevance_score`: `utility * recency * (1 + frequency)`. -/
noncomputable def relevance_score (b : TemporalBullet) (current_time : PyDateTime) : ℝ :=
  b.utility_score * b.recency_score current_time * (1 + b.frequency_score current_time)

/-- `TemporalBullet.mark_used`.  `task_type = none` models Python `None`; the
guard `if task_type and task_type not in self.task_types_used` is falsy both
for `None` and for the empty string. -/
def mark_used (b : TemporalBullet) (task_type : Option String)
    (current_time : PyDateTime) : TemporalBullet :=
  { b with
    last_used_at := current_time
    usage_timeline := b.usage_timeline ++ [current_time]
    task_types_used :=
      match task_type with
      | some s =>
        if s ≠ "" ∧ s ∉ b.task_types_used then b.task_types_used ++ [s]
        else b.task_types_used
      | none => b.task_types_used }

/-- `TemporalBullet.should_archive`: archive when inactive at least
`min_days_inactive` whole days or when the recency score has decayed below
`0.05`. -/
noncomputable def should_archive (b : TemporalBullet) (min_days_inactive : Int)
    (current_time : PyDateTime) : Bool :=
  decide (daysBetween current_time b.last_used_at ≥ min_days_inactive)
    || decide (b.recency_score current_time < 0.05)

end TemporalBullet

/-! ## The curator

Python objects live in a heap: `store` holds every allocated bullet and the
`playbook` / `archive` lists hold references (indices) into it, mirroring the
Python lists of object references `self.playbook` and `self.archive`. -/

/-- `TemporalCurator`'s mutable state. -/
structure CuratorState where
  store : List TemporalBullet
  playbook : List Nat
  archive : List Nat
  archive_inactive_days : Int
deriving Repr

/-- Dereference a bullet.  All reachable states keep every reference in
range, so the default value is never observed there. -/
def getB (store : List TemporalBullet) (r : Nat) : TemporalBullet :=
  store.getD r default

/-- In-place mutation of the object at reference `r`. -/
def setB (store : List TemporalBullet) (r : Nat) (b : TemporalBullet) :
    List TemporalBullet :=
  store.set r b

namespace TemporalCurator

/-- `TemporalCurator._find_similar`: the first bullet of `candidates` whose
`content` equals that of the probe, here returned as a reference into the
store.  The unused `threshold` parameter of the source is dropped. -/
def findSimilarRef (store : List TemporalBullet) (candidates : List Nat)
    (content : String) : Option Nat :=
  candidates.find? (fun r => (getB store r).content == content)

/-- A delta that matched nothing: `created_at` and `last_used_at` are
overwritten with the merge time, every other field kept. -/
def stampNew (d : TemporalBullet) (t : PyDateTime) : TemporalBullet :=
  { d with created_at := t, last_used_at := t }

/-- The matched-delta update of `merge_delta`: accumulate the delta's
counters onto the existing bullet, then `mark_used(current_time=t)`
(no task type propagated). -/
def bump (b d : TemporalBullet) (t : PyDateTime) : TemporalBullet :=
  TemporalBullet.mark_used
    { b with
      helpful_count := b.helpful_count + d.helpful_count
      harmful_count := b.harmful_count + d.harmful_count }
    none t

/-- The per-delta loop of `merge_delta`.  `oldPb` is `self.playbook`, which
the loop reads but never reassigns; `updated` accumulates
`updated_playbook`.  A fresh object allocation is modelled by appending to
the store. -/
def mergeLoop (oldPb : List Nat) (t : PyDateTime) :
    List TemporalBullet → List Nat → List TemporalBullet →
    List TemporalBullet × List Nat
  | store, updated, [] => (store, updated)
  | store, updated, d :: rest =>
    match findSimilarRef store oldPb d.content with
    | some r =>
      mergeLoop oldPb t (setB store r (bump (getB store r) d t))
        (updated ++ [r]) rest
    | none =>
      mergeLoop oldPb t (store ++ [stampNew d t])
        (updated ++ [store.length]) rest

/-- The tail of `merge_delta` after the loop: every prior playbook bullet
that is not structurally equal (Python dataclass `==`) to some bullet of
`updated_playbook` is appended; the result becomes the new playbook and is
also returned. -/
def mergeFinish (s : CuratorState) (sr : List TemporalBullet × List Nat) :
    CuratorState × List Nat :=
  ({ s with
      store := sr.1
      playbook := sr.2 ++ s.playbook.filter
        (fun r => !(sr.2.any (fun q => getB sr.1 q == getB sr.1 r))) },
   sr.2 ++ s.playbook.filter
     (fun r => !(sr.2.any (fun q => getB sr.1 q == getB sr.1 r))))

/-- `TemporalCurator.merge_delta`: the per-delta loop followed by the
carry-over of unmatched prior bullets. -/
def merge_delta (s : CuratorState) (delta_bullets : List TemporalBullet)
    (current_time : PyDateTime) : CuratorState × List Nat :=
  mergeFinish s (mergeLoop s.playbook current_time s.store [] delta_bullets)

/-- The record returned by `archive_stale_bullets`; `archived_bullets` holds
references shared with the archive. -/
structure ArchiveResult where
  archived_count : Nat
  active_count : Nat
  archived_bullets : List Nat
deriving Repr

/-- `TemporalCurator.archive_stale_bullets`: partition the playbook with
`should_archive`, append the stale references to the archive, keep the rest
active.  No bullet value is copied or changed. -/
noncomputable def archive_stale_bullets (s : CuratorState)
    (current_time : PyDateTime) : ArchiveResult × CuratorState :=
  let archived := s.playbook.filter
    (fun r => (getB s.store r).should_archive s.archive_inactive_days current_time)
  let active := s.playbook.filter
    (fun r => !((getB s.store r).should_archive s.archive_inactive_days current_time))
  (⟨archived.length, active.length, archived⟩,
   { s with playbook := active, archive := s.archive ++ archived })

/-- The descending-relevance comparator used by
`sorted(candidates, key=relevance_score, reverse=True)`: `a` may precede `b`
iff `relevance b ≤ relevance a`.  CPython's sort is stable also under
`reverse=True`, which `List.mergeSort` with this comparator reproduces. -/
noncomputable def rankKey (store : List TemporalBullet) (t : PyDateTime)
    (a b : Nat) : Bool :=
  decide ((getB store b).relevance_score t ≤ (getB store a).relevance_score t)

/-- Python's `ranked[:top_k]` for an `int` slice bound (negative bounds count
from the end, clamped at zero). -/
def pytake (k : Int) (l : List α) : List α :=
  if 0 ≤ k then l.take k.toNat else l.take (l.length - (-k).toNat)

/-- The candidate set computed by `retrieve_relevant`: the
`if task_type:` guard is falsy for `None` and for `""`, otherwise the
playbook is filtered to bullets whose `task_types_used` contains the task
type or is empty. -/
def candidatesOf (s : CuratorState) (task_type : Option String) : List Nat :=
  match task_type with
  | some tt =>
    if tt = "" then s.playbook
    else s.playbook.filter
      (fun r => tt ∈ (getB s.store r).task_types_used
        || (getB s.store r).task_types_used == [])
  | none => s.playbook

/-- Mark every reference of `refs` used, in order (the loop
`for bullet in top_bullets: bullet.mark_used(task_type, current_time)`). -/
def markAll (store : List TemporalBullet) (refs : List Nat)
    (task_type : Option String) (t : PyDateTime) : List TemporalBullet :=
  refs.foldl (fun st r => setB st r ((getB st r).mark_used task_type t)) store

/-- `TemporalCurator.retrieve_relevant`: rank the candidates by relevance
descending (stable), take the top `top_k`, mark each returned bullet used,
and return the references together with the post-call state. -/
noncomputable def retrieve_relevant (s : CuratorState)
    (task_type : Option String) (top_k : Int) (current_time : PyDateTime) :
    List Nat × CuratorState :=
  if candidatesOf s task_type = [] then ([], s)
  else
    (pytake top_k ((candidatesOf s task_type).mergeSort (rankKey s.store current_time)),
     { s with
        store := markAll s.store
          (pytake top_k ((candidatesOf s task_type).mergeSort (rankKey s.store current_time)))
          task_type current_time })

/-- The dictionary returned by `get_temporal_stats`. -/
structure TemporalStats where
  total_bullets : Nat
  avg_recency : ℝ
  avg_frequency : ℝ
  avg_relevance : ℝ
  avg_age_days : ℝ
  avg_inactive_days : ℝ
  stale_bullets : Nat

/-- `TemporalCurator.get_temporal_stats`: arithmetic means over the active
playbook, or the all-zero record for an empty playbook. -/
noncomputable def get_temporal_stats (s : CuratorState)
    (current_time : PyDateTime) : TemporalStats :=
  if s.playbook = [] then ⟨0, 0, 0, 0, 0, 0, 0⟩
  else
    let bs := s.playbook.map (getB s.store)
    { total_bullets := s.playbook.length
      avg_recency := (bs.map (fun b => b.recency_score current_time)).sum / bs.length
      avg_frequency := (bs.map (fun b => b.frequency_score current_time)).sum / bs.length
      avg_relevance := (bs.map (fun b => b.relevance_score current_time)).sum / bs.length
      avg_age_days :=
        (((bs.map (fun b => daysBetween current_time b.created_at)).sum : Int) : ℝ) / bs.length
      avg_inactive_days :=
        (((bs.map (fun b => daysBetween current_time b.last_used_at)).sum : Int) : ℝ) / bs.length
      stale_bullets :=
        (bs.filter (fun b => b.should_archive s.archive_inactive_days current_time)).length }

end TemporalCurator

/-! ## Serialization

`to_dict` encodes the three timestamp fields with `datetime.isoformat()`,
which for microsecond-free datetimes prints the fixed-width form
`YYYY-MM-DDTHH:MM:SS`; `from_dict` decodes with `datetime.fromisoformat`.
A failed parse is the distinct deserialization error (`Option.none`). -/

def digitChar : Nat → Char
  | 0 => '0' | 1 => '1' | 2 => '2' | 3 => '3' | 4 => '4'
  | 5 => '5' | 6 => '6' | 7 => '7' | 8 => '8' | _ => '9'

def charDigit (c : Char) : Option Nat :=
  if '0' ≤ c ∧ c ≤ '9' then some (c.toNat - 48) else none

/-- Two-digit zero-padded field. -/
def pad2 (n : Nat) : List Char := [digitChar (n / 10 % 10), digitChar (n % 10)]

/-- Four-digit zero-padded field. -/
def pad4 (n : Nat) : List Char :=
  [digitChar (n / 1000 % 10), digitChar (n / 100 % 10),
   digitChar (n / 10 % 10), digitChar (n % 10)]

def isoChars (dt : PyDateTime) : List Char :=
  pad4 dt.year ++ '-' :: (pad2 dt.month ++ '-' :: (pad2 dt.day
    ++ 'T' :: (pad2 dt.hour ++ ':' :: (pad2 dt.minute ++ ':' :: pad2 dt.second))))

/-- `datetime.isoformat()` for a microsecond-free datetime. -/
def isoformat (dt : PyDateTime) : String := ⟨isoChars dt⟩

def parse2 (a b : Char) : Option Nat := do
  pure ((← charDigit a) * 10 + (← charDigit b))

def parse4 (a b c d : Char) : Option Nat := do
  pure ((← charDigit a) * 1000 + (← charDigit b) * 100
    + (← charDigit c) * 10 + (← charDigit d))

def fromisoChars : List Char → Option PyDateTime
  | [y1, y2, y3, y4, c1, m1, m2, c2, d1, d2, c3,
     h1, h2, c4, n1, n2, c5, s1, s2] =>
    if c1 = '-' ∧ c2 = '-' ∧ c3 = 'T' ∧ c4 = ':' ∧ c5 = ':' then do
      pure ⟨← parse4 y1 y2 y3 y4, ← parse2 m1 m2, ← parse2 d1 d2,
        ← parse2 h1 h2, ← parse2 n1 n2, ← parse2 s1 s2⟩
    else none
  | _ => none

/-- `datetime.fromisoformat` restricted to the fixed-width second-resolution
form that `isoformat` emits. -/
def fromisoformat (s : String) : Option PyDateTime := fromisoChars s.data

/-- Component ranges under which the fixed-width ISO form is faithful; every
datetime Python can construct (year 1–9999, month 1–12, …) satisfies them.
-/
def InIsoRange (dt : PyDateTime) : Prop :=
  dt.year < 10000 ∧ dt.month < 100 ∧ dt.day < 100 ∧
    dt.hour < 100 ∧ dt.minute < 100 ∧ dt.second < 100

instance (dt : PyDateTime) : Decidable (InIsoRange dt) := by
  unfold InIsoRange; infer_instance

/-- The mapping produced by `TemporalBullet.to_dict`: timestamps are
ISO-8601 strings. -/
structure BulletDict where
  id : String
  content : String
  bullet_type : String
  helpful_count : Int
  harmful_count : Int
  created_at : String
  last_used_at : String
  usage_timeline : List String
  task_types_used : List String
deriving DecidableEq, Repr

namespace TemporalBullet

/-- `TemporalBullet.to_dict`. -/
def to_dict (b : TemporalBullet) : BulletDict :=
  { id := b.id
    content := b.content
    bullet_type := b.bullet_type
    helpful_count := b.helpful_count
    harmful_count := b.harmful_count
    created_at := isoformat b.created_at
    last_used_at := isoformat b.last_used_at
    usage_timeline := b.usage_timeline.map isoformat
    task_types_used := b.task_types_used }

/-- `TemporalBullet.from_dict`: parse the three timestamp fields, fail
distinctly on any malformed one. -/
def from_dict (d : BulletDict) : Option TemporalBullet := do
  let c ← fromisoformat d.created_at
  let lu ← fromisoformat d.last_used_at
  let tl ← d.usage_timeline.mapM fromisoformat
  pure
    { id := d.id
      content := d.content
      bullet_type := d.bullet_type
      helpful_count := d.helpful_count
      harmful_count := d.harmful_count
      created_at := c
      last_used_at := lu
      usage_timeline := tl
      task_types_used := d.task_types_used }

end TemporalBullet

/-! ## Spec-side definitions and reachability -/

/-- The candidate set exactly as claim C2 words it: when a task type is
*supplied*, filter the playbook; when it is *omitted*, take the whole
playbook.  (The source additionally treats a supplied empty string like an
omitted one; compare `TemporalCurator.candidatesOf`.) -/
def specCandidates (s : CuratorState) (task_type : Option String) : List Nat :=
  match task_type with
  | some tt =>
    s.playbook.filter
      (fun r => tt ∈ (getB s.store r).task_types_used
        || (getB s.store r).task_types_used == [])
  | none => s.playbook

/-- Curator states reachable from an initial state whose playbook holds
distinct bullet objects and whose archive is empty, by any sequence of the
four public operations (deltas are freshly produced objects of the upstream
process; `get_temporal_stats` does not change the state). -/
inductive Reachable : CuratorState → Prop where
  | init (bullets : List TemporalBullet) (days : Int) :
      Reachable ⟨bullets, List.range bullets.length, [], days⟩
  | merge (s : CuratorState) (deltas : List TemporalBullet) (t : PyDateTime)
      (h : Reachable s) : Reachable (TemporalCurator.merge_delta s deltas t).1
  | archiveStep (s : CuratorState) (t : PyDateTime) (h : Reachable s) :
      Reachable (TemporalCurator.archive_stale_bullets s t).2
  | retrieveStep (s : CuratorState) (tt : Option String) (k : Int)
      (t : PyDateTime) (h : Reachable s) :
      Reachable (TemporalCurator.retrieve_relevant s tt k t).2

/-! ## Concrete scenario data -/

def dtJan1 : PyDateTime := ⟨2026, 1, 1, 0, 0, 0⟩
def dtFeb8 : PyDateTime := ⟨2026, 2, 8, 0, 0, 0⟩
def dtFeb10 : PyDateTime := ⟨2026, 2, 10, 0, 0, 0⟩
def dtFeb10h5 : PyDateTime := ⟨2026, 2, 10, 5, 0, 0⟩

/-- Scenario bullet A: helpful 5, harmful 0, last used 2 days before
`dtFeb10`. -/
def bA : TemporalBullet := ⟨"A", "a", "str", 5, 0, dtJan1, dtFeb8, [], []⟩

/-- Scenario bullet B: helpful 5, harmful 0, last used 40 days before
`dtFeb10`. -/
def bB : TemporalBullet := ⟨"B", "b", "str", 5, 0, dtJan1, dtJan1, [], []⟩

/-- A bullet labeled with task type `"x"`. -/
def bX : TemporalBullet := ⟨"X", "x-content", "str", 5, 0, dtJan1, dtFeb8, [], ["x"]⟩

/-- A bullet never labeled for any task. -/
def bN : TemporalBullet := ⟨"N", "n", "str", 5, 0, dtJan1, dtFeb8, [], []⟩

/-- A bullet last used on the day of `dtFeb10h5`. -/
def bC : TemporalBullet := ⟨"C", "c", "str", 1, 0, dtJan1, dtFeb10, [], []⟩

/-- A bullet used 5 times within 30 days of `dtFeb10`. -/
def bFive : TemporalBullet :=
  ⟨"F5", "f5", "str", 1, 0, dtJan1, dtFeb8, List.replicate 5 dtFeb8, []⟩

/-- A bullet used 31 times within 30 days of `dtFeb10`. -/
def bMany : TemporalBullet :=
  ⟨"F31", "f31", "str", 1, 0, dtJan1, dtFeb10, List.replicate 31 dtFeb10, []⟩

/-- A bullet with a nonempty usage timeline and task labels, for the
serialization round trip. -/
def bSer : TemporalBullet :=
  ⟨"W8", "w", "str", 2, 1, dtJan1, dtFeb8, [dtJan1, dtFeb8], ["x", "y"]⟩

/-- Delta matching `bN` by content. -/
def dN : TemporalBullet := ⟨"dN", "n", "str", 3, 1, epochDT, epochDT, [], []⟩

/-- A second delta matching `bN` by content. -/
def dN2 : TemporalBullet := ⟨"dN2", "n", "cal", 4, 2, epochDT, epochDT, [], []⟩

/-- Delta matching nothing in the scenario states. -/
def dZ : TemporalBullet := ⟨"dZ", "z", "str", 2, 0, epochDT, epochDT, [], []⟩

/-- A second delta with the same content as `dZ`. -/
def dZ2 : TemporalBullet := ⟨"dZ2", "z", "mis", 7, 3, epochDT, epochDT, [], []⟩

def sEmpty : CuratorState := ⟨[], [], [], 30⟩
def sAB : CuratorState := ⟨[bA, bB], [0, 1], [], 30⟩
def sX : CuratorState := ⟨[bX], [0], [], 30⟩
def sN : CuratorState := ⟨[bN], [0], [], 30⟩

/-! ## Helper lemmas: serialization round trip -/

theorem charDigit_digitChar {d : Nat} (h : d < 10) :
    charDigit (digitChar d) = some d := by
  interval_cases d <;> decide

theorem parse2_digits {n : Nat} (h : n < 100) :
    parse2 (digitChar (n / 10 % 10)) (digitChar (n % 10)) = some n := by
  have h1 : n / 10 % 10 < 10 := Nat.mod_lt _ (by norm_num)
  have h2 : n % 10 < 10 := Nat.mod_lt _ (by norm_num)
  unfold parse2
  rw [charDigit_digitChar h1, charDigit_digitChar h2]
  show some (n / 10 % 10 * 10 + n % 10) = some n
  congr 1
  omega

theorem parse4_digits {n : Nat} (h : n < 10000) :
    parse4 (digitChar (n / 1000 % 10)) (digitChar (n / 100 % 10))
      (digitChar (n / 10 % 10)) (digitChar (n % 10)) = some n := by
  have h1 : n / 1000 % 10 < 10 := Nat.mod_lt _ (by norm_num)
  have h2 : n / 100 % 10 < 10 := Nat.mod_lt _ (by norm_num)
  have h3 : n / 10 % 10 < 10 := Nat.mod_lt _ (by norm_num)
  have h4 : n % 10 < 10 := Nat.mod_lt _ (by norm_num)
  unfold parse4
  rw [charDigit_digitChar h1, charDigit_digitChar h2,
    charDigit_digitChar h3, charDigit_digitChar h4]
  show some (n / 1000 % 10 * 1000 + n / 100 % 10 * 100
    + n / 10 % 10 * 10 + n % 10) = some n
  congr 1
  omega

theorem fromisoformat_isoformat {dt : PyDateTime} (h : InIsoRange dt) :
    fromisoformat (isoformat dt) = some dt := by
  obtain ⟨h1, h2, h3, h4, h5, h6⟩ := h
  show fromisoChars (isoChars dt) = some dt
  simp only [isoChars, pad4, pad2, List.cons_append, List.nil_append]
  simp only [fromisoChars, parse2_digits h2, parse2_digits h3,
    parse2_digits h4, parse2_digits h5, parse2_digits h6, parse4_digits h1]
  simp

theorem mapM_fromisoformat_map {l : List PyDateTime}
    (h : ∀ u ∈ l, InIsoRange u) :
    (l.map isoformat).mapM fromisoformat = some l := by
  induction l with
  | nil => rfl
  | cons a l ih =>
    rw [List.map_cons, List.mapM_cons,
      fromisoformat_isoformat (h a (List.mem_cons_self a l)),
      ih (fun u hu => h u (List.mem_cons_of_mem a hu))]
    rfl

/-- **C8.** Round-trip: deserializing the serialization of any bullet
(whose timestamps lie in the fixed-width ISO component ranges, as every
Python-constructible datetime does) succeeds and yields a bullet equal to
the original in every field, including timeline order; and the serialized
mapping carries the timestamps as the ISO-8601 strings produced by
`isoformat`. -/
theorem C8_serialization_roundtrip (b : TemporalBullet)
    (hc : InIsoRange b.created_at) (hl : InIsoRange b.last_used_at)
    (ht : ∀ u ∈ b.usage_timeline, InIsoRange u) :
    TemporalBullet.from_dict b.to_dict = some b ∧
      b.to_dict.created_at = isoformat b.created_at ∧
      b.to_dict.last_used_at = isoformat b.last_used_at ∧
      b.to_dict.usage_timeline = b.usage_timeline.map isoformat ∧
      b.to_dict.id = b.id ∧
      b.to_dict.content = b.content ∧
      b.to_dict.bullet_type = b.bullet_type ∧
      b.to_dict.helpful_count = b.helpful_count ∧
      b.to_dict.harmful_count = b.harmful_count ∧
      b.to_dict.task_types_used = b.task_types_used := by
  refine ⟨?_, rfl, rfl, rfl, rfl, rfl, rfl, rfl, rfl, rfl⟩
  unfold TemporalBullet.from_dict TemporalBullet.to_dict
  rw [fromisoformat_isoformat hc]
  rw [fromisoformat_isoformat hl]
  rw [mapM_fromisoformat_map ht]
  rfl

/-- Witness for C8 at the concrete bullet `bSer`. -/
theorem C8_serialization_roundtrip_witness :
    TemporalBullet.from_dict bSer.to_dict = some bSer :=
  (C8_serialization_roundtrip bSer (by decide) (by decide) (by decide)).1

/-! ## Scoring claims -/

/-- **C5.** For every bullet and reference time, the recency score is
`exp(-0.1·d)` for `d` the floor of whole elapsed days since `last_used_at`;
it equals `1.0` at zero elapsed whole days (insensitive to sub-day timing),
and is strictly decreasing in the number of elapsed whole days. -/
theorem C5_recency_score (b b1 b2 : TemporalBullet) (t : PyDateTime) :
    b.recency_score t
        = Real.exp (-(0.1 : ℝ) * ((daysBetween t b.last_used_at : Int) : ℝ)) ∧
    (daysBetween t b.last_used_at = 0 → b.recency_score t = 1) ∧
    (daysBetween t b1.last_used_at < daysBetween t b2.last_used_at →
      b2.recency_score t < b1.recency_score t) := by
  refine ⟨rfl, ?_, ?_⟩
  · intro h
    unfold TemporalBullet.recency_score
    rw [h]
    norm_num
  · intro h
    unfold TemporalBullet.recency_score
    apply Real.exp_lt_exp.mpr
    have hc : ((daysBetween t b1.last_used_at : Int) : ℝ)
        < ((daysBetween t b2.last_used_at : Int) : ℝ) := by exact_mod_cast h
    nlinarith

/-- Witness for C5: `bB` (40 whole days stale at `dtFeb10`) scores strictly
below `bA` (2 whole days stale), and `bC` scores exactly 1 at a reference
time 5 hours into the same day. -/
theorem C5_recency_score_witness :
    bB.recency_score dtFeb10 < bA.recency_score dtFeb10 ∧
      bC.recency_score dtFeb10h5 = 1 :=
  ⟨(C5_recency_score bA bA bB dtFeb10).2.2 (by decide),
   (C5_recency_score bC bC bC dtFeb10h5).2.1 (by decide)⟩

/-- **C6.** For every bullet and reference time, the frequency score is
exactly the count of timeline entries within the 30-day window divided by
the fixed window length 30 (five such entries score `5/30`), and it exceeds
`1.0` as soon as more than 30 entries fall inside the window. -/
theorem C6_frequency_score (b : TemporalBullet) (t : PyDateTime) :
    b.frequency_score t
        = ((b.usage_timeline.filter (fun u => daysBetween t u ≤ 30)).length : ℝ) / 30 ∧
    ((b.usage_timeline.filter (fun u => daysBetween t u ≤ 30)).length = 5 →
      b.frequency_score t = 5 / 30) ∧
    (30 < (b.usage_timeline.filter (fun u => daysBetween t u ≤ 30)).length →
      1 < b.frequency_score t) := by
  refine ⟨rfl, ?_, ?_⟩
  · intro h
    unfold TemporalBullet.frequency_score
    rw [h]
    norm_num
  · intro h
    unfold TemporalBullet.frequency_score
    rw [one_lt_div (by norm_num : (0:ℝ) < 30)]
    exact_mod_cast h

/-- Witness for C6: `bFive` (5 in-window uses) scores `5/30`; `bMany`
(31 in-window uses) scores above 1. -/
theorem C6_frequency_score_witness :
    bFive.frequency_score dtFeb10 = 5 / 30 ∧ 1 < bMany.frequency_score dtFeb10 :=
  ⟨(C6_frequency_score bFive dtFeb10).2.1 (by decide),
   (C6_frequency_score bMany dtFeb10).2.2 (by decide)⟩

/-! ## Statistics on an empty playbook -/

/-- **C9.** On an empty active playbook, `get_temporal_stats` returns (it is
a total function — no error, in particular no division by zero is ever
evaluated) the record with `total_bullets = 0` and zero for every aggregate:
average recency, frequency, relevance, age, inactivity, and the stale
count. -/
theorem C9_stats_empty_playbook (s : CuratorState) (t : PyDateTime)
    (h : s.playbook = []) :
    (TemporalCurator.get_temporal_stats s t).total_bullets = 0 ∧
    (TemporalCurator.get_temporal_stats s t).avg_recency = 0 ∧
    (TemporalCurator.get_temporal_stats s t).avg_frequency = 0 ∧
    (TemporalCurator.get_temporal_stats s t).avg_relevance = 0 ∧
    (TemporalCurator.get_temporal_stats s t).avg_age_days = 0 ∧
    (TemporalCurator.get_temporal_stats s t).avg_inactive_days = 0 ∧
    (TemporalCurator.get_temporal_stats s t).stale_bullets = 0 := by
  unfold TemporalCurator.get_temporal_stats
  rw [if_pos h]
  exact ⟨rfl, rfl, rfl, rfl, rfl, rfl, rfl⟩

/-- Witness for C9 at the concrete empty curator state. -/
theorem C9_stats_empty_playbook_witness :
    (TemporalCurator.get_temporal_stats sEmpty dtFeb10).total_bullets = 0 ∧
      (TemporalCurator.get_temporal_stats sEmpty dtFeb10).avg_relevance = 0 :=
  ⟨(C9_stats_empty_playbook sEmpty dtFeb10 rfl).1,
   (C9_stats_empty_playbook sEmpty dtFeb10 rfl).2.2.2.1⟩

/-! ## Archival -/

theorem recencyA_ge : (0.05 : ℝ) ≤ bA.recency_score dtFeb10 := by
  unfold TemporalBullet.recency_score
  rw [(by decide : daysBetween dtFeb10 bA.last_used_at = 2)]
  have h := Real.add_one_le_exp (-(0.1 : ℝ) * ((2 : Int) : ℝ))
  norm_num at h ⊢
  linarith

theorem shouldArchive_bA_false : bA.should_archive 30 dtFeb10 = false := by
  unfold TemporalBullet.should_archive
  rw [Bool.or_eq_false_iff]
  refine ⟨by decide, ?_⟩
  rw [decide_eq_false_iff_not]
  push_neg
  exact recencyA_ge

theorem shouldArchive_bB_true : bB.should_archive 30 dtFeb10 = true := by
  unfold TemporalBullet.should_archive
  rw [(by decide : decide (daysBetween dtFeb10 bB.last_used_at ≥ 30) = true),
    Bool.true_or]

/-- **C4.** `archive_stale_bullets(t)` moves out of the playbook exactly the
bullets satisfying should-archive (whole days inactive at least the
threshold, or recency below 0.05): they are appended to the archive in
playbook order as shared references without copying any bullet value, the
rest stay active in order, the returned record carries the just-archived
reference list and counts summing to the prior active size.  In the A/B
scenario (A used 2 days ago, B 40 days ago, threshold 30 days), B is
archived, A stays, counts are 1 and 1. -/
theorem C4_archive_stale_bullets (s : CuratorState) (t : PyDateTime) :
    ((TemporalCurator.archive_stale_bullets s t).2.playbook
        = s.playbook.filter
          (fun r => !(getB s.store r).should_archive s.archive_inactive_days t)) ∧
    ((TemporalCurator.archive_stale_bullets s t).2.archive
        = s.archive ++ s.playbook.filter
          (fun r => (getB s.store r).should_archive s.archive_inactive_days t)) ∧
    ((TemporalCurator.archive_stale_bullets s t).1.archived_bullets
        = s.playbook.filter
          (fun r => (getB s.store r).should_archive s.archive_inactive_days t)) ∧
    ((TemporalCurator.archive_stale_bullets s t).1.archived_count
        + (TemporalCurator.archive_stale_bullets s t).1.active_count
        = s.playbook.length) ∧
    ((TemporalCurator.archive_stale_bullets s t).2.store = s.store) ∧
    ((TemporalCurator.archive_stale_bullets s t).2.archive_inactive_days
        = s.archive_inactive_days) ∧
    ((TemporalCurator.archive_stale_bullets sAB dtFeb10).1.archived_count = 1 ∧
      (TemporalCurator.archive_stale_bullets sAB dtFeb10).1.active_count = 1 ∧
      (TemporalCurator.archive_stale_bullets sAB dtFeb10).2.playbook = [0] ∧
      (TemporalCurator.archive_stale_bullets sAB dtFeb10).2.archive = [1] ∧
      (TemporalCurator.archive_stale_bullets sAB dtFeb10).1.archived_bullets = [1] ∧
      getB (TemporalCurator.archive_stale_bullets sAB dtFeb10).2.store 1 = bB) := by
  refine ⟨rfl, rfl, rfl, (List.length_eq_length_filter_add _).symm, rfl, rfl, ?_⟩
  have hfilt : sAB.playbook.filter
      (fun r => (getB sAB.store r).should_archive sAB.archive_inactive_days dtFeb10)
      = [1] := by
    show List.filter _ [0, 1] = [1]
    rw [List.filter_cons, List.filter_cons]
    have h0 : getB sAB.store 0 = bA := by decide
    have h1 : getB sAB.store 1 = bB := by decide
    have hd : sAB.archive_inactive_days = 30 := by decide
    rw [h0, h1, hd, shouldArchive_bA_false, shouldArchive_bB_true]
    rfl
  have hfilt2 : sAB.playbook.filter
      (fun r => !(getB sAB.store r).should_archive sAB.archive_inactive_days dtFeb10)
      = [0] := by
    show List.filter _ [0, 1] = [0]
    rw [List.filter_cons, List.filter_cons]
    have h0 : getB sAB.store 0 = bA := by decide
    have h1 : getB sAB.store 1 = bB := by decide
    have hd : sAB.archive_inactive_days = 30 := by decide
    rw [h0, h1, hd, shouldArchive_bA_false, shouldArchive_bB_true]
    rfl
  unfold TemporalCurator.archive_stale_bullets
  rw [hfilt, hfilt2]
  exact ⟨rfl, rfl, rfl, rfl, rfl, by decide⟩

/-! ## Helper lemmas: the heap -/

theorem getB_setB_self {store : List TemporalBullet} {r : Nat}
    (h : r < store.length) (b : TemporalBullet) :
    getB (setB store r b) r = b := by
  simp [getB, setB, List.getD, List.getElem?_set_self h]

theorem getB_setB_ne (store : List TemporalBullet) {r q : Nat}
    (h : q ≠ r) (b : TemporalBullet) :
    getB (setB store r b) q = getB store q := by
  simp [getB, setB, List.getD, List.getElem?_set_ne (Ne.symm h)]

theorem getB_append_left {store : List TemporalBullet} {q : Nat}
    (h : q < store.length) (l : List TemporalBullet) :
    getB (store ++ l) q = getB store q := by
  simp [getB, List.getD, List.getElem?_append, h]

theorem getB_append_length (store : List TemporalBullet) (b : TemporalBullet) :
    getB (store ++ [b]) store.length = b := by
  simp [getB, List.getD]

namespace TemporalCurator

theorem merge_delta_singleton_matched (s : CuratorState) (d : TemporalBullet)
    (r : Nat) (t : PyDateTime)
    (hfind : findSimilarRef s.store s.playbook d.content = some r) :
    merge_delta s [d] t =
      ({ s with
          store := setB s.store r (bump (getB s.store r) d t)
          playbook := r :: s.playbook.filter
            (fun q => !(getB (setB s.store r (bump (getB s.store r) d t)) r
              == getB (setB s.store r (bump (getB s.store r) d t)) q)) },
       r :: s.playbook.filter
         (fun q => !(getB (setB s.store r (bump (getB s.store r) d t)) r
           == getB (setB s.store r (bump (getB s.store r) d t)) q))) := by
  unfold merge_delta mergeFinish mergeLoop
  rw [hfind]
  simp only [mergeLoop, List.any_cons, List.any_nil, Bool.or_false,
    List.singleton_append, List.nil_append]

theorem merge_delta_singleton_unmatched (s : CuratorState) (d : TemporalBullet)
    (t : PyDateTime)
    (hfind : findSimilarRef s.store s.playbook d.content = none) :
    merge_delta s [d] t =
      ({ s with
          store := s.store ++ [stampNew d t]
          playbook := s.store.length :: s.playbook.filter
            (fun q => !(getB (s.store ++ [stampNew d t]) s.store.length
              == getB (s.store ++ [stampNew d t]) q)) },
       s.store.length :: s.playbook.filter
         (fun q => !(getB (s.store ++ [stampNew d t]) s.store.length
           == getB (s.store ++ [stampNew d t]) q))) := by
  unfold merge_delta mergeFinish mergeLoop
  rw [hfind]
  simp only [mergeLoop, List.any_cons, List.any_nil, Bool.or_false,
    List.singleton_append, List.nil_append]

end TemporalCurator

/-! ## Merge -/

/-- **C1.** For a `merge_delta` call: a delta whose content exactly matches
an existing active bullet (first match in playbook iteration order, via
`_find_similar`) accumulates its helpful/harmful counts onto that very
bullet (same reference), marks it used at `t` without propagating any task
type, and keeps it first in the result, followed by the prior active bullets
not structurally equal to a just-produced bullet, carried over unchanged; a
delta with no similar bullet is added as a fresh object with `created_at`
and `last_used_at` overwritten to `t`; the result becomes the new playbook.
Merging two deltas of the same content and counts one at a time into an
empty playbook yields one bullet holding the delta's counts after the first
call and twice them after the second, at the same reference. -/
theorem C1_merge_delta (s : CuratorState) (d d1 d2 : TemporalBullet) (r : Nat)
    (t t1 t2 : PyDateTime) (days : Int) :
    (TemporalCurator.findSimilarRef s.store s.playbook d.content = some r →
      r < s.store.length →
      ((getB (TemporalCurator.merge_delta s [d] t).1.store r).helpful_count
          = (getB s.store r).helpful_count + d.helpful_count ∧
        (getB (TemporalCurator.merge_delta s [d] t).1.store r).harmful_count
          = (getB s.store r).harmful_count + d.harmful_count ∧
        (getB (TemporalCurator.merge_delta s [d] t).1.store r).last_used_at = t ∧
        (getB (TemporalCurator.merge_delta s [d] t).1.store r).usage_timeline
          = (getB s.store r).usage_timeline ++ [t] ∧
        (getB (TemporalCurator.merge_delta s [d] t).1.store r).task_types_used
          = (getB s.store r).task_types_used ∧
        (getB (TemporalCurator.merge_delta s [d] t).1.store r).id
          = (getB s.store r).id ∧
        (getB (TemporalCurator.merge_delta s [d] t).1.store r).content
          = (getB s.store r).content ∧
        (getB (TemporalCurator.merge_delta s [d] t).1.store r).created_at
          = (getB s.store r).created_at ∧
        (TemporalCurator.merge_delta s [d] t).1.playbook
          = r :: s.playbook.filter
            (fun q => !(getB (TemporalCurator.merge_delta s [d] t).1.store r
              == getB (TemporalCurator.merge_delta s [d] t).1.store q)) ∧
        (∀ q, q ≠ r →
          getB (TemporalCurator.merge_delta s [d] t).1.store q = getB s.store q))) ∧
    (TemporalCurator.findSimilarRef s.store s.playbook d.content = none →
      ((TemporalCurator.merge_delta s [d] t).1.store
          = s.store ++ [{ d with created_at := t, last_used_at := t }] ∧
        (TemporalCurator.merge_delta s [d] t).1.playbook
          = s.store.length :: s.playbook.filter
            (fun q => !(getB (TemporalCurator.merge_delta s [d] t).1.store s.store.length
              == getB (TemporalCurator.merge_delta s [d] t).1.store q)) ∧
        (∀ q, q < s.store.length →
          getB (TemporalCurator.merge_delta s [d] t).1.store q = getB s.store q))) ∧
    (d2.content = d1.content → d2.helpful_count = d1.helpful_count →
      ((TemporalCurator.merge_delta ⟨[], [], [], days⟩ [d1] t1).1.playbook = [0] ∧
        getB (TemporalCurator.merge_delta ⟨[], [], [], days⟩ [d1] t1).1.store 0
          = { d1 with created_at := t1, last_used_at := t1 } ∧
        (getB (TemporalCurator.merge_delta ⟨[], [], [], days⟩ [d1] t1).1.store 0).helpful_count
          = d1.helpful_count ∧
        (TemporalCurator.merge_delta
          (TemporalCurator.merge_delta ⟨[], [], [], days⟩ [d1] t1).1 [d2] t2).1.playbook
          = [0] ∧
        (getB (TemporalCurator.merge_delta
          (TemporalCurator.merge_delta ⟨[], [], [], days⟩ [d1] t1).1 [d2] t2).1.store 0).helpful_count
          = 2 * d1.helpful_count ∧
        (getB (TemporalCurator.merge_delta
          (TemporalCurator.merge_delta ⟨[], [], [], days⟩ [d1] t1).1 [d2] t2).1.store 0).harmful_count
          = d1.harmful_count + d2.harmful_count ∧
        (getB (TemporalCurator.merge_delta
          (TemporalCurator.merge_delta ⟨[], [], [], days⟩ [d1] t1).1 [d2] t2).1.store 0).id
          = d1.id ∧
        (getB (TemporalCurator.merge_delta
          (TemporalCurator.merge_delta ⟨[], [], [], days⟩ [d1] t1).1 [d2] t2).1.store 0).created_at
          = t1 ∧
        (getB (TemporalCurator.merge_delta
          (TemporalCurator.merge_delta ⟨[], [], [], days⟩ [d1] t1).1 [d2] t2).1.store 0).last_used_at
          = t2)) := by
  refine ⟨?_, ?_, ?_⟩
  · intro hfind hr
    rw [TemporalCurator.merge_delta_singleton_matched s d r t hfind]
    refine ⟨?_, ?_, ?_, ?_, ?_, ?_, ?_, ?_, rfl, ?_⟩
    all_goals try
      (show _ = _;
        rw [show getB (setB s.store r (TemporalCurator.bump (getB s.store r) d t)) r
          = TemporalCurator.bump (getB s.store r) d t from getB_setB_self hr _];
        rfl)
    intro q hq
    exact getB_setB_ne s.store hq _
  · intro hfind
    rw [TemporalCurator.merge_delta_singleton_unmatched s d t hfind]
    refine ⟨rfl, rfl, ?_⟩
    intro q hq
    exact getB_append_left hq _
  · intro hc hh
    have hstep1 : (TemporalCurator.merge_delta ⟨[], [], [], days⟩ [d1] t1).1
        = ⟨[TemporalCurator.stampNew d1 t1], [0], [], days⟩ := rfl
    have hfind2 : TemporalCurator.findSimilarRef
        [TemporalCurator.stampNew d1 t1] [0] d2.content = some 0 := by
      apply List.find?_cons_of_pos
      show (d1.content == d2.content) = true
      rw [hc]
      exact beq_self_eq_true _
    rw [hstep1]
    refine ⟨rfl, rfl, rfl, ?_, ?_, ?_, ?_, ?_, ?_⟩
    all_goals
      rw [TemporalCurator.merge_delta_singleton_matched
        ⟨[TemporalCurator.stampNew d1 t1], [0], [], days⟩ d2 0 t2 hfind2]
    · show 0 :: List.filter _ [0] = [0]
      rw [List.filter_cons]
      simp only [beq_self_eq_true, Bool.not_true, List.filter_nil]
      rfl
    · show (TemporalCurator.bump (TemporalCurator.stampNew d1 t1) d2 t2).helpful_count
        = 2 * d1.helpful_count
      show d1.helpful_count + d2.helpful_count = 2 * d1.helpful_count
      rw [hh]
      ring
    · rfl
    · rfl
    · rfl
    · rfl

/-- Witness for C1: a matched delta accumulates onto `bN`, an unmatched
delta is appended freshly stamped, and the two-call scenario doubles the
helpful count. -/
theorem C1_merge_delta_witness :
    (getB (TemporalCurator.merge_delta sN [dN] dtFeb10).1.store 0).helpful_count
        = bN.helpful_count + dN.helpful_count ∧
    (TemporalCurator.merge_delta sN [dZ] dtFeb10).1.store
        = sN.store ++ [{ dZ with created_at := dtFeb10, last_used_at := dtFeb10 }] ∧
    (getB (TemporalCurator.merge_delta
        (TemporalCurator.merge_delta ⟨[], [], [], 30⟩ [dZ] dtJan1).1
        [dZ] dtFeb10).1.store 0).helpful_count
      = 2 * dZ.helpful_count :=
  ⟨((C1_merge_delta sN dN dZ dZ 0 dtFeb10 dtJan1 dtFeb10 30).1
      (by decide) (by decide)).1,
   ((C1_merge_delta sN dZ dZ dZ 0 dtFeb10 dtJan1 dtFeb10 30).2.1 (by decide)).1,
   ((C1_merge_delta sN dZ dZ dZ 0 dtFeb10 dtJan1 dtFeb10 30).2.2
      rfl rfl).2.2.2.2.1⟩

theorem find?_congr_mem {α : Type} {p q : α → Bool} :
    ∀ {l : List α}, (∀ a ∈ l, p a = q a) → l.find? p = l.find? q := by
  intro l
  induction l with
  | nil => intro _; rfl
  | cons a l ih =>
    intro h
    rw [List.find?_cons, List.find?_cons, h a (List.mem_cons_self a l)]
    cases hqa : q a
    · exact ih fun x hx => h x (List.mem_cons_of_mem a hx)
    · rfl

namespace TemporalCurator

theorem mergeLoop_nil (oldPb : List Nat) (t : PyDateTime)
    (store : List TemporalBullet) (updated : List Nat) :
    mergeLoop oldPb t store updated [] = (store, updated) := rfl

theorem mergeLoop_cons_matched (oldPb : List Nat) (t : PyDateTime)
    (store : List TemporalBullet) (updated : List Nat) (d : TemporalBullet)
    (rest : List TemporalBullet) (r : Nat)
    (hfind : findSimilarRef store oldPb d.content = some r) :
    mergeLoop oldPb t store updated (d :: rest)
      = mergeLoop oldPb t (setB store r (bump (getB store r) d t))
          (updated ++ [r]) rest := by
  rw [mergeLoop, hfind]

theorem mergeLoop_cons_unmatched (oldPb : List Nat) (t : PyDateTime)
    (store : List TemporalBullet) (updated : List Nat) (d : TemporalBullet)
    (rest : List TemporalBullet)
    (hfind : findSimilarRef store oldPb d.content = none) :
    mergeLoop oldPb t store updated (d :: rest)
      = mergeLoop oldPb t (store ++ [stampNew d t])
          (updated ++ [store.length]) rest := by
  rw [mergeLoop, hfind]

end TemporalCurator

theorem count_filter_not_self (pb : List Nat) (st : List TemporalBullet)
    (r : Nat) (upd : List Nat) (hmem : r ∈ upd) :
    (List.filter (fun rO => !(upd.any (fun q => getB st q == getB st rO))) pb).count r
      = 0 := by
  rw [List.count_eq_zero]
  intro hmemf
  have hpred := (List.mem_filter.mp hmemf).2
  simp only [Bool.not_eq_true', List.any_eq_false] at hpred
  exact hpred r hmem (by simp)

/-- **C10.** `merge_delta` deduplicates only against the pre-call active
playbook, never within the incoming batch: two deltas of one call matching
the same existing bullet both increment that bullet's counters and its
reference appears twice in the resulting playbook; two deltas of one call
sharing content that matches no pre-existing bullet are both added, as two
separate freshly stamped objects. -/
theorem C10_merge_batch_dedup (s : CuratorState) (d1 d2 : TemporalBullet)
    (r : Nat) (t : PyDateTime) :
    (TemporalCurator.findSimilarRef s.store s.playbook d1.content = some r →
      d2.content = d1.content → r < s.store.length →
      ((TemporalCurator.merge_delta s [d1, d2] t).1.playbook.count r = 2 ∧
        (getB (TemporalCurator.merge_delta s [d1, d2] t).1.store r).helpful_count
          = (getB s.store r).helpful_count + d1.helpful_count + d2.helpful_count ∧
        (getB (TemporalCurator.merge_delta s [d1, d2] t).1.store r).harmful_count
          = (getB s.store r).harmful_count + d1.harmful_count + d2.harmful_count ∧
        (getB (TemporalCurator.merge_delta s [d1, d2] t).1.store r).usage_timeline
          = (getB s.store r).usage_timeline ++ [t, t])) ∧
    (TemporalCurator.findSimilarRef s.store s.playbook d1.content = none →
      d2.content = d1.content → (∀ q ∈ s.playbook, q < s.store.length) →
      ((TemporalCurator.merge_delta s [d1, d2] t).1.store
          = s.store ++ [TemporalCurator.stampNew d1 t, TemporalCurator.stampNew d2 t] ∧
        getB (TemporalCurator.merge_delta s [d1, d2] t).1.store s.store.length
          = TemporalCurator.stampNew d1 t ∧
        getB (TemporalCurator.merge_delta s [d1, d2] t).1.store (s.store.length + 1)
          = TemporalCurator.stampNew d2 t ∧
        ∃ rest, (TemporalCurator.merge_delta s [d1, d2] t).1.playbook
          = s.store.length :: (s.store.length + 1) :: rest)) := by
  constructor
  · intro hfind hc hr
    have hr1 : r < (setB s.store r (TemporalCurator.bump (getB s.store r) d1 t)).length := by
      simpa [setB] using hr
    have hg1 : getB (setB s.store r (TemporalCurator.bump (getB s.store r) d1 t)) r
        = TemporalCurator.bump (getB s.store r) d1 t := getB_setB_self hr _
    have hfind2 : TemporalCurator.findSimilarRef
        (setB s.store r (TemporalCurator.bump (getB s.store r) d1 t))
        s.playbook d2.content = some r := by
      unfold TemporalCurator.findSimilarRef at hfind ⊢
      refine (find?_congr_mem (fun a _ => ?_)).trans hfind
      rw [hc]
      by_cases har : a = r
      · subst har
        rw [hg1]
        rfl
      · rw [getB_setB_ne s.store har]
    unfold TemporalCurator.merge_delta
    rw [TemporalCurator.mergeLoop_cons_matched _ _ _ _ _ _ _ hfind,
      TemporalCurator.mergeLoop_cons_matched _ _ _ _ _ _ _ hfind2,
      TemporalCurator.mergeLoop_nil]
    have hg2 : getB (setB (setB s.store r (TemporalCurator.bump (getB s.store r) d1 t)) r
        (TemporalCurator.bump
          (getB (setB s.store r (TemporalCurator.bump (getB s.store r) d1 t)) r) d2 t)) r
        = TemporalCurator.bump
          (getB (setB s.store r (TemporalCurator.bump (getB s.store r) d1 t)) r) d2 t :=
      getB_setB_self hr1 _
    unfold TemporalCurator.mergeFinish
    refine ⟨?_, ?_, ?_, ?_⟩
    · rw [List.count_append, count_filter_not_self _ _ _ _ (by simp)]
      simp
    · show (getB _ r).helpful_count = _
      rw [hg2, hg1]
      show (getB s.store r).helpful_count + d1.helpful_count + d2.helpful_count = _
      rfl
    · show (getB _ r).harmful_count = _
      rw [hg2, hg1]
      rfl
    · show (getB _ r).usage_timeline = _
      rw [hg2, hg1]
      show ((getB s.store r).usage_timeline ++ [t]) ++ [t] = _
      rw [List.append_assoc]
      rfl
  · intro hfind hc hWF
    have hfind2 : TemporalCurator.findSimilarRef
        (s.store ++ [TemporalCurator.stampNew d1 t]) s.playbook d2.content = none := by
      unfold TemporalCurator.findSimilarRef at hfind ⊢
      refine (find?_congr_mem (fun a ha => ?_)).trans hfind
      rw [hc, getB_append_left (hWF a ha)]
    unfold TemporalCurator.merge_delta
    rw [TemporalCurator.mergeLoop_cons_unmatched _ _ _ _ _ _ hfind,
      TemporalCurator.mergeLoop_cons_unmatched _ _ _ _ _ _ hfind2,
      TemporalCurator.mergeLoop_nil]
    unfold TemporalCurator.mergeFinish
    have hlen : (s.store ++ [TemporalCurator.stampNew d1 t]).length = s.store.length + 1 := by
      simp
    refine ⟨?_, ?_, ?_, ?_⟩
    · show (s.store ++ [TemporalCurator.stampNew d1 t]) ++ [TemporalCurator.stampNew d2 t] = _
      rw [List.append_assoc]
      rfl
    · show getB ((s.store ++ [TemporalCurator.stampNew d1 t]) ++ [TemporalCurator.stampNew d2 t])
        s.store.length = _
      rw [getB_append_left (by simp), getB_append_length]
    · show getB ((s.store ++ [TemporalCurator.stampNew d1 t]) ++ [TemporalCurator.stampNew d2 t])
        (s.store.length + 1) = _
      rw [← hlen, getB_append_length]
    · rw [hlen]
      exact ⟨_, rfl⟩

/-- Witness for C10: two deltas matching `bN` leave its reference twice in
the playbook; two unmatched same-content deltas are both appended. -/
theorem C10_merge_batch_dedup_witness :
    (TemporalCurator.merge_delta sN [dN, dN2] dtFeb10).1.playbook.count 0 = 2 ∧
    (TemporalCurator.merge_delta sN [dZ, dZ2] dtFeb10).1.store
      = sN.store
        ++ [TemporalCurator.stampNew dZ dtFeb10, TemporalCurator.stampNew dZ2 dtFeb10] :=
  ⟨((C10_merge_batch_dedup sN dN dN2 0 dtFeb10).1 (by decide) (by decide) (by decide)).1,
   ((C10_merge_batch_dedup sN dZ dZ2 0 dtFeb10).2 (by decide) (by decide) (by decide)).1⟩

/-! ## Helper lemmas: retrieval -/

namespace TemporalCurator

theorem rankKey_trans (store : List TemporalBullet) (t : PyDateTime) :
    ∀ a b c : Nat, rankKey store t a b → rankKey store t b c → rankKey store t a c := by
  intro a b c hab hbc
  simp only [rankKey, decide_eq_true_eq] at *
  exact le_trans hbc hab

theorem rankKey_total (store : List TemporalBullet) (t : PyDateTime) :
    ∀ a b : Nat, rankKey store t a b || rankKey store t b a := by
  intro a b
  simp only [rankKey, Bool.or_eq_true, decide_eq_true_eq]
  exact le_total _ _

theorem pytake_coe (k : Nat) (l : List α) : pytake (k : Int) l = l.take k := by
  unfold pytake
  rw [if_pos (by omega), Int.toNat_ofNat]

theorem retrieve_singleton (s : CuratorState) (tt : Option String) (k : Int)
    (t : PyDateTime) (r : Nat) (hc : candidatesOf s tt = [r]) (hk : 1 ≤ k) :
    retrieve_relevant s tt k t
      = ([r], { s with store := markAll s.store [r] tt t }) := by
  unfold retrieve_relevant
  rw [hc, if_neg (by simp), List.mergeSort_singleton]
  have hp : pytake k [r] = [r] := by
    unfold pytake
    rw [if_pos (by omega)]
    apply List.take_of_length_le
    simp
    omega
  rw [hp]

end TemporalCurator

/-- **C2 (amended).** For `retrieve_relevant(task_type, top_k, t)` with
`top_k ≥ 0`: when `task_type` is supplied *and non-empty* the candidate set
is exactly the active bullets whose `task_types_used` contains it or is
empty, and when it is omitted — or is the empty string, which the source's
truthiness test treats like an omission — the candidate set is the whole
playbook; the returned list is the candidates stably sorted by
`relevance_score(t)` descending (ties keep playbook order: every
descending-sorted sublist of the candidates survives into the ranking),
truncated to `min(top_k, #candidates)` elements; an empty playbook yields
`[]`, never an error. -/
theorem C2_retrieve_ranking (s : CuratorState) (tt : Option String) (k : Nat)
    (t : PyDateTime) :
    ((TemporalCurator.retrieve_relevant s tt (k : Int) t).1
        = ((TemporalCurator.candidatesOf s tt).mergeSort
            (TemporalCurator.rankKey s.store t)).take k) ∧
    ((TemporalCurator.retrieve_relevant s tt (k : Int) t).1.length
        = min k (TemporalCurator.candidatesOf s tt).length) ∧
    List.Pairwise
      (fun a b => (getB s.store b).relevance_score t ≤ (getB s.store a).relevance_score t)
      (TemporalCurator.retrieve_relevant s tt (k : Int) t).1 ∧
    List.Perm
      ((TemporalCurator.candidatesOf s tt).mergeSort (TemporalCurator.rankKey s.store t))
      (TemporalCurator.candidatesOf s tt) ∧
    (∀ pr : List Nat, List.Sublist pr (TemporalCurator.candidatesOf s tt) →
      List.Pairwise (fun a b => TemporalCurator.rankKey s.store t a b = true) pr →
      List.Sublist pr ((TemporalCurator.candidatesOf s tt).mergeSort
        (TemporalCurator.rankKey s.store t))) ∧
    (TemporalCurator.candidatesOf s none = s.playbook) ∧
    (TemporalCurator.candidatesOf s (some "") = s.playbook) ∧
    (∀ c : String, c ≠ "" →
      TemporalCurator.candidatesOf s (some c) = s.playbook.filter
        (fun r => c ∈ (getB s.store r).task_types_used
          || (getB s.store r).task_types_used == [])) ∧
    (s.playbook = [] → (TemporalCurator.retrieve_relevant s tt (k : Int) t).1 = []) := by
  have hA : (TemporalCurator.retrieve_relevant s tt (k : Int) t).1
      = ((TemporalCurator.candidatesOf s tt).mergeSort
          (TemporalCurator.rankKey s.store t)).take k := by
    by_cases hE : TemporalCurator.candidatesOf s tt = []
    · unfold TemporalCurator.retrieve_relevant
      rw [hE]
      simp [List.mergeSort_nil]
    · unfold TemporalCurator.retrieve_relevant
      rw [if_neg hE, TemporalCurator.pytake_coe]
  have hsorted := List.sorted_mergeSort
    (TemporalCurator.rankKey_trans s.store t) (TemporalCurator.rankKey_total s.store t)
    (TemporalCurator.candidatesOf s tt)
  refine ⟨hA, ?_, ?_, List.mergeSort_perm _ _, ?_, rfl, ?_, ?_, ?_⟩
  · rw [hA, List.length_take, List.length_mergeSort]
  · rw [hA]
    refine List.Pairwise.sublist (List.take_sublist _ _) (hsorted.imp ?_)
    intro a b h
    simpa [TemporalCurator.rankKey, decide_eq_true_eq] using h
  · intro pr hsub hpw
    exact List.sublist_mergeSort
      (TemporalCurator.rankKey_trans s.store t) (TemporalCurator.rankKey_total s.store t)
      hpw hsub
  · simp [TemporalCurator.candidatesOf]
  · intro c hc
    simp [TemporalCurator.candidatesOf, hc]
  · intro hpb
    have hE : TemporalCurator.candidatesOf s tt = [] := by
      unfold TemporalCurator.candidatesOf
      cases tt with
      | none => exact hpb
      | some c =>
        rw [hpb]
        by_cases hc : c = "" <;> simp [hc]
    unfold TemporalCurator.retrieve_relevant
    rw [hE]
    simp

/-- Counterexample to C2 as stated: with the supplied task type `""` and a
playbook holding only `bX` (labeled `["x"]`), the claim's candidate set is
empty, so the claimed result is the empty list — but the code's truthiness
test skips the filter and returns the bullet. -/
theorem C2_retrieve_ranking_counterexample :
    (TemporalCurator.retrieve_relevant sX (some "") 1 dtFeb10).1
      ≠ TemporalCurator.pytake 1 ((specCandidates sX (some "")).mergeSort
          (TemporalCurator.rankKey sX.store dtFeb10)) := by
  rw [TemporalCurator.retrieve_singleton sX (some "") 1 dtFeb10 0 (by decide) (by norm_num)]
  rw [show specCandidates sX (some "") = [] from by decide, List.mergeSort_nil]
  decide

/-- Witness for C2 at concrete inputs: a supplied non-empty task type
filters and ranks as claimed, and an empty playbook returns the empty
list. -/
theorem C2_retrieve_ranking_witness :
    (TemporalCurator.retrieve_relevant sX (some "x") ((2 : Nat) : Int) dtFeb10).1.length
        = min 2 1 ∧
    List.Sublist [0] ((TemporalCurator.candidatesOf sX (some "x")).mergeSort
        (TemporalCurator.rankKey sX.store dtFeb10)) ∧
    TemporalCurator.candidatesOf sX (some "x") = sX.playbook.filter
      (fun r => "x" ∈ (getB sX.store r).task_types_used
        || (getB sX.store r).task_types_used == []) ∧
    (TemporalCurator.retrieve_relevant sEmpty none ((3 : Nat) : Int) dtFeb10).1 = [] := by
  refine ⟨?_, ?_, ?_, ?_⟩
  · rw [(C2_retrieve_ranking sX (some "x") 2 dtFeb10).2.1,
      show (TemporalCurator.candidatesOf sX (some "x")).length = 1 from by decide]
  · exact (C2_retrieve_ranking sX (some "x") 2 dtFeb10).2.2.2.2.1 [0]
      (by rw [show TemporalCurator.candidatesOf sX (some "x") = [0] from by decide])
      (List.pairwise_singleton _ _)
  · exact (C2_retrieve_ranking sX (some "x") 2 dtFeb10).2.2.2.2.2.2.2.1 "x" (by decide)
  · exact (C2_retrieve_ranking sEmpty none 3 dtFeb10).2.2.2.2.2.2.2.2 rfl

theorem daysBetween_self (t : PyDateTime) : daysBetween t t = 0 := by
  unfold daysBetween
  rw [sub_self, Int.zero_fdiv]

theorem frequency_score_mark_used (b : TemporalBullet) (tt : Option String)
    (t : PyDateTime) :
    (b.mark_used tt t).frequency_score t = b.frequency_score t + 1 / 30 := by
  unfold TemporalBullet.frequency_score
  have ht : (b.mark_used tt t).usage_timeline = b.usage_timeline ++ [t] := rfl
  rw [ht, List.filter_append]
  have h1 : [t].filter (fun u => daysBetween t u ≤ 30) = [t] := by
    simp [daysBetween_self]
  rw [h1, List.length_append, List.length_singleton]
  push_cast
  ring

namespace TemporalCurator

theorem markAll_cons (store : List TemporalBullet) (r : Nat) (rest : List Nat)
    (tt : Option String) (t : PyDateTime) :
    markAll store (r :: rest) tt t
      = markAll (setB store r ((getB store r).mark_used tt t)) rest tt t := rfl

theorem markAll_getB (tt : Option String) (t : PyDateTime) :
    ∀ (refs : List Nat) (store : List TemporalBullet), refs.Nodup →
      (∀ q ∈ refs, q < store.length) →
      ((∀ r ∈ refs, getB (markAll store refs tt t) r = (getB store r).mark_used tt t) ∧
        (∀ q, q ∉ refs → getB (markAll store refs tt t) q = getB store q)) := by
  intro refs
  induction refs with
  | nil =>
    intro store _ _
    exact ⟨fun r hr => absurd hr (List.not_mem_nil r), fun q _ => rfl⟩
  | cons r rest ih =>
    intro store hnd hlt
    have hrnotin : r ∉ rest := (List.nodup_cons.mp hnd).1
    have hlt' : ∀ q ∈ rest,
        q < (setB store r ((getB store r).mark_used tt t)).length := by
      intro q hq
      simpa [setB] using hlt q (List.mem_cons_of_mem r hq)
    obtain ⟨ih1, ih2⟩ := ih (setB store r ((getB store r).mark_used tt t))
      (List.nodup_cons.mp hnd).2 hlt'
    constructor
    · intro x hx
      rcases List.mem_cons.mp hx with hx | hx
      · subst hx
        rw [markAll_cons, ih2 x hrnotin,
          getB_setB_self (hlt x (List.mem_cons_self x rest)) _]
      · have hxr : x ≠ r := fun h => hrnotin (h ▸ hx)
        rw [markAll_cons, ih1 x hx, getB_setB_ne store hxr]
    · intro q hq
      have hqr : q ≠ r := fun h => hq (h ▸ List.mem_cons_self r rest)
      have hqrest : q ∉ rest := fun h => hq (List.mem_cons_of_mem r h)
      rw [markAll_cons, ih2 q hqrest, getB_setB_ne store hqr]

theorem pytake_sublist (k : Int) (l : List α) : List.Sublist (pytake k l) l := by
  unfold pytake
  split
  · exact List.take_sublist _ _
  · exact List.take_sublist _ _

theorem candidatesOf_sublist (s : CuratorState) (tt : Option String) :
    List.Sublist (candidatesOf s tt) s.playbook := by
  cases tt with
  | none => exact List.Sublist.refl _
  | some c =>
    by_cases hc : c = "" <;> simp [candidatesOf, hc, List.filter_sublist]

end TemporalCurator

/-- **C3 (amended).** Every bullet returned by `retrieve_relevant` (for a
playbook of distinct in-range references) is mutated by being returned: its
`last_used_at` becomes `t`, `t` is appended to `usage_timeline` — which
raises its frequency score by exactly `1/30`, so a repeated call at the same
`t` changes subsequent scores — and the task type is appended to
`task_types_used` when supplied, *non-empty* (the source's truthiness guard
drops an empty string), and not already present; every bullet not returned,
in particular every archived one, and the playbook and archive lists
themselves, are left completely unchanged. -/
theorem C3_retrieve_side_effects (s : CuratorState) (tt : Option String)
    (k : Int) (t : PyDateTime)
    (hnd : s.playbook.Nodup) (hWF : ∀ q ∈ s.playbook, q < s.store.length) :
    (∀ r ∈ (TemporalCurator.retrieve_relevant s tt k t).1,
      getB (TemporalCurator.retrieve_relevant s tt k t).2.store r
          = (getB s.store r).mark_used tt t ∧
      (getB (TemporalCurator.retrieve_relevant s tt k t).2.store r).last_used_at = t ∧
      (getB (TemporalCurator.retrieve_relevant s tt k t).2.store r).usage_timeline
          = (getB s.store r).usage_timeline ++ [t] ∧
      (∀ c : String, tt = some c → c ≠ "" → c ∉ (getB s.store r).task_types_used →
        (getB (TemporalCurator.retrieve_relevant s tt k t).2.store r).task_types_used
          = (getB s.store r).task_types_used ++ [c]) ∧
      (getB (TemporalCurator.retrieve_relevant s tt k t).2.store r).frequency_score t
          = (getB s.store r).frequency_score t + 1 / 30) ∧
    (∀ q, q ∉ (TemporalCurator.retrieve_relevant s tt k t).1 →
      getB (TemporalCurator.retrieve_relevant s tt k t).2.store q = getB s.store q) ∧
    (TemporalCurator.retrieve_relevant s tt k t).2.playbook = s.playbook ∧
    (TemporalCurator.retrieve_relevant s tt k t).2.archive = s.archive := by
  by_cases hE : TemporalCurator.candidatesOf s tt = []
  · have hres : TemporalCurator.retrieve_relevant s tt k t = ([], s) := by
      unfold TemporalCurator.retrieve_relevant
      rw [hE]
      simp
    rw [hres]
    exact ⟨fun r hr => absurd hr (List.not_mem_nil r), fun q _ => rfl, rfl, rfl⟩
  · have hres : TemporalCurator.retrieve_relevant s tt k t
        = (TemporalCurator.pytake k ((TemporalCurator.candidatesOf s tt).mergeSort
            (TemporalCurator.rankKey s.store t)),
           { s with store := (TemporalCurator.markAll s.store
              (TemporalCurator.pytake k ((TemporalCurator.candidatesOf s tt).mergeSort
                (TemporalCurator.rankKey s.store t))) tt t) }) := by
      unfold TemporalCurator.retrieve_relevant
      rw [if_neg hE]
    have hnd_top : (TemporalCurator.pytake k ((TemporalCurator.candidatesOf s tt).mergeSort
        (TemporalCurator.rankKey s.store t))).Nodup :=
      List.Nodup.sublist (TemporalCurator.pytake_sublist _ _)
        ((List.mergeSort_perm _ _).nodup_iff.mpr
          (List.Nodup.sublist (TemporalCurator.candidatesOf_sublist s tt) hnd))
    have hlt_top : ∀ q ∈ TemporalCurator.pytake k ((TemporalCurator.candidatesOf s tt).mergeSort
        (TemporalCurator.rankKey s.store t)), q < s.store.length := by
      intro q hq
      have h1 : q ∈ (TemporalCurator.candidatesOf s tt).mergeSort
          (TemporalCurator.rankKey s.store t) :=
        (TemporalCurator.pytake_sublist _ _).subset hq
      have h2 : q ∈ TemporalCurator.candidatesOf s tt := List.mem_mergeSort.mp h1
      exact hWF q ((TemporalCurator.candidatesOf_sublist s tt).subset h2)
    obtain ⟨m1, m2⟩ := TemporalCurator.markAll_getB tt t
      (TemporalCurator.pytake k ((TemporalCurator.candidatesOf s tt).mergeSort
        (TemporalCurator.rankKey s.store t))) s.store hnd_top hlt_top
    rw [hres]
    refine ⟨?_, ?_, rfl, rfl⟩
    · intro r hr
      refine ⟨m1 r hr, ?_, ?_, ?_, ?_⟩
      · rw [m1 r hr]
        rfl
      · rw [m1 r hr]
        rfl
      · intro c hcase hcne hcnot
        subst hcase
        rw [m1 r hr]
        show (if c ≠ "" ∧ c ∉ (getB s.store r).task_types_used
          then (getB s.store r).task_types_used ++ [c]
          else (getB s.store r).task_types_used) = _
        rw [if_pos ⟨hcne, hcnot⟩]
      · rw [m1 r hr, frequency_score_mark_used]
    · intro q hq
      exact m2 q hq

/-- Counterexample to C3 as stated: with the supplied task type `""` (not
present in the returned bullet's labels) the claim demands `""` be appended
to `task_types_used`, but the code's truthiness guard drops it. -/
theorem C3_retrieve_side_effects_counterexample :
    0 ∈ (TemporalCurator.retrieve_relevant sN (some "") 1 dtFeb10).1 ∧
    "" ∉ (getB (TemporalCurator.retrieve_relevant sN (some "") 1 dtFeb10).2.store
      0).task_types_used := by
  rw [TemporalCurator.retrieve_singleton sN (some "") 1 dtFeb10 0 (by decide) (by norm_num)]
  exact ⟨by decide, by decide⟩

/-- Witness for C3 at concrete inputs: retrieving `bN` with task type `"x"`
appends the label, stamps the reference time, and leaves the playbook
list unchanged. -/
theorem C3_retrieve_side_effects_witness :
    (getB (TemporalCurator.retrieve_relevant sN (some "x") 1 dtFeb10).2.store
        0).task_types_used = bN.task_types_used ++ ["x"] ∧
    (getB (TemporalCurator.retrieve_relevant sN (some "x") 1 dtFeb10).2.store
        0).last_used_at = dtFeb10 ∧
    (TemporalCurator.retrieve_relevant sN (some "x") 1 dtFeb10).2.playbook
      = sN.playbook := by
  have h := C3_retrieve_side_effects sN (some "x") 1 dtFeb10 (by decide) (by decide)
  have hr : 0 ∈ (TemporalCurator.retrieve_relevant sN (some "x") 1 dtFeb10).1 := by
    rw [TemporalCurator.retrieve_singleton sN (some "x") 1 dtFeb10 0 (by decide) (by norm_num)]
    simp
  exact ⟨(h.1 0 hr).2.2.2.1 "x" rfl (by decide) (by decide), (h.1 0 hr).2.1, h.2.2.1⟩

/-! ## Helper lemmas: ownership invariant -/

namespace TemporalCurator

theorem markAll_length (tt : Option String) (t : PyDateTime) :
    ∀ (refs : List Nat) (store : List TemporalBullet),
      (markAll store refs tt t).length = store.length := by
  intro refs
  induction refs with
  | nil => intro store; rfl
  | cons r rest ih =>
    intro store
    rw [markAll_cons, ih]
    simp [setB]

theorem mergeLoop_store_le (oldPb : List Nat) (t : PyDateTime) :
    ∀ (ds : List TemporalBullet) (store : List TemporalBullet) (updated : List Nat),
      store.length ≤ (mergeLoop oldPb t store updated ds).1.length := by
  intro ds
  induction ds with
  | nil => intro store updated; exact le_refl _
  | cons d rest ih =>
    intro store updated
    cases hfind : findSimilarRef store oldPb d.content with
    | some r =>
      rw [mergeLoop_cons_matched _ _ _ _ _ _ _ hfind]
      have h := ih (setB store r (bump (getB store r) d t)) (updated ++ [r])
      simpa [setB] using h
    | none =>
      rw [mergeLoop_cons_unmatched _ _ _ _ _ _ hfind]
      have h := ih (store ++ [stampNew d t]) (updated ++ [store.length])
      have hlen : store.length ≤ (store ++ [stampNew d t]).length := by simp
      omega

theorem mergeLoop_mem (oldPb : List Nat) (t : PyDateTime) :
    ∀ (ds : List TemporalBullet) (store : List TemporalBullet) (updated : List Nat)
      (q : Nat), q ∈ (mergeLoop oldPb t store updated ds).2 →
      q ∈ updated ∨ q ∈ oldPb ∨
        (store.length ≤ q ∧ q < (mergeLoop oldPb t store updated ds).1.length) := by
  intro ds
  induction ds with
  | nil => intro store updated q hq; exact Or.inl hq
  | cons d rest ih =>
    intro store updated q hq
    cases hfind : findSimilarRef store oldPb d.content with
    | some r =>
      rw [mergeLoop_cons_matched _ _ _ _ _ _ _ hfind] at hq ⊢
      rcases ih _ _ q hq with h | h | h
      · rcases List.mem_append.mp h with h | h
        · exact Or.inl h
        · have hr : r ∈ oldPb := List.mem_of_find?_eq_some hfind
          rw [List.mem_singleton] at h
          exact Or.inr (Or.inl (h ▸ hr))
      · exact Or.inr (Or.inl h)
      · refine Or.inr (Or.inr ⟨?_, h.2⟩)
        have hlen : (setB store r (bump (getB store r) d t)).length = store.length := by
          simp [setB]
        omega
    | none =>
      rw [mergeLoop_cons_unmatched _ _ _ _ _ _ hfind] at hq ⊢
      have hmono := mergeLoop_store_le oldPb t rest (store ++ [stampNew d t])
        (updated ++ [store.length])
      have hlen : (store ++ [stampNew d t]).length = store.length + 1 := by simp
      rcases ih _ _ q hq with h | h | h
      · rcases List.mem_append.mp h with h | h
        · exact Or.inl h
        · rw [List.mem_singleton] at h
          subst h
          exact Or.inr (Or.inr ⟨le_refl _, by omega⟩)
      · exact Or.inr (Or.inl h)
      · exact Or.inr (Or.inr ⟨by omega, h.2⟩)

end TemporalCurator

theorem reachable_inv (s : CuratorState) (h : Reachable s) :
    (∀ r ∈ s.archive, r ∉ s.playbook) ∧ (∀ r ∈ s.playbook, r < s.store.length) ∧
      (∀ r ∈ s.archive, r < s.store.length) := by
  induction h with
  | init bullets days =>
    refine ⟨fun r hr => absurd hr (List.not_mem_nil r), fun r hr => ?_,
      fun r hr => absurd hr (List.not_mem_nil r)⟩
    simpa using List.mem_range.mp hr
  | merge s0 deltas t h ih =>
    obtain ⟨ih1, ih2, ih3⟩ := ih
    have hstore_le := TemporalCurator.mergeLoop_store_le s0.playbook t deltas s0.store []
    refine ⟨?_, ?_, ?_⟩
    · intro r hr hmem
      have hr' : r ∈ s0.archive := hr
      have hmem' : r ∈ (TemporalCurator.mergeLoop s0.playbook t s0.store [] deltas).2
          ++ s0.playbook.filter (fun x =>
            !((TemporalCurator.mergeLoop s0.playbook t s0.store [] deltas).2.any
              (fun q => getB (TemporalCurator.mergeLoop s0.playbook t s0.store [] deltas).1 q
                == getB (TemporalCurator.mergeLoop s0.playbook t s0.store [] deltas).1 x))) :=
        hmem
      rcases List.mem_append.mp hmem' with hm | hm
      · rcases TemporalCurator.mergeLoop_mem s0.playbook t deltas s0.store [] r hm with
          hcase | hcase | hcase
        · exact absurd hcase (List.not_mem_nil r)
        · exact ih1 r hr' hcase
        · have := ih3 r hr'
          omega
      · exact ih1 r hr' (List.mem_filter.mp hm).1
    · intro r hmem
      have hmem' : r ∈ (TemporalCurator.mergeLoop s0.playbook t s0.store [] deltas).2
          ++ s0.playbook.filter (fun x =>
            !((TemporalCurator.mergeLoop s0.playbook t s0.store [] deltas).2.any
              (fun q => getB (TemporalCurator.mergeLoop s0.playbook t s0.store [] deltas).1 q
                == getB (TemporalCurator.mergeLoop s0.playbook t s0.store [] deltas).1 x))) :=
        hmem
      show r < (TemporalCurator.mergeLoop s0.playbook t s0.store [] deltas).1.length
      rcases List.mem_append.mp hmem' with hm | hm
      · rcases TemporalCurator.mergeLoop_mem s0.playbook t deltas s0.store [] r hm with
          hcase | hcase | hcase
        · exact absurd hcase (List.not_mem_nil r)
        · have := ih2 r hcase
          omega
        · exact hcase.2
      · have := ih2 r (List.mem_filter.mp hm).1
        omega
    · intro r hr
      have hr' : r ∈ s0.archive := hr
      show r < (TemporalCurator.mergeLoop s0.playbook t s0.store [] deltas).1.length
      have := ih3 r hr'
      omega
  | archiveStep s0 t h ih =>
    obtain ⟨ih1, ih2, ih3⟩ := ih
    refine ⟨?_, ?_, ?_⟩
    · intro r hr hmem
      have hr' : r ∈ s0.archive ++ s0.playbook.filter (fun x =>
          (getB s0.store x).should_archive s0.archive_inactive_days t) := hr
      have hmem' : r ∈ s0.playbook.filter (fun x =>
          !((getB s0.store x).should_archive s0.archive_inactive_days t)) := hmem
      have hnot := (List.mem_filter.mp hmem').2
      rcases List.mem_append.mp hr' with hm | hm
      · exact ih1 r hm (List.mem_filter.mp hmem').1
      · have hyes := (List.mem_filter.mp hm).2
        rw [hyes] at hnot
        exact Bool.false_ne_true hnot
    · intro r hmem
      have hmem' : r ∈ s0.playbook.filter (fun x =>
          !((getB s0.store x).should_archive s0.archive_inactive_days t)) := hmem
      exact ih2 r (List.mem_filter.mp hmem').1
    · intro r hr
      have hr' : r ∈ s0.archive ++ s0.playbook.filter (fun x =>
          (getB s0.store x).should_archive s0.archive_inactive_days t) := hr
      rcases List.mem_append.mp hr' with hm | hm
      · exact ih3 r hm
      · exact ih2 r (List.mem_filter.mp hm).1
  | retrieveStep s0 tt k t h ih =>
    obtain ⟨ih1, ih2, ih3⟩ := ih
    by_cases hE : TemporalCurator.candidatesOf s0 tt = []
    · have hid : (TemporalCurator.retrieve_relevant s0 tt k t).2 = s0 := by
        unfold TemporalCurator.retrieve_relevant
        rw [hE]
        simp
      rw [hid]
      exact ⟨ih1, ih2, ih3⟩
    · have hres : (TemporalCurator.retrieve_relevant s0 tt k t).2
          = { s0 with store := (TemporalCurator.markAll s0.store
              (TemporalCurator.pytake k ((TemporalCurator.candidatesOf s0 tt).mergeSort
                (TemporalCurator.rankKey s0.store t))) tt t) } := by
        unfold TemporalCurator.retrieve_relevant
        rw [if_neg hE]
      rw [hres]
      refine ⟨ih1, ?_, ?_⟩
      · intro r hr
        show r < (TemporalCurator.markAll s0.store _ tt t).length
        rw [TemporalCurator.markAll_length]
        exact ih2 r hr
      · intro r hr
        show r < (TemporalCurator.markAll s0.store _ tt t).length
        rw [TemporalCurator.markAll_length]
        exact ih3 r hr

/-- **C7.** In every curator state reachable by any sequence of merges,
archivals and retrievals from an initial state of distinct active bullets
and an empty archive, no bullet reference is simultaneously in the active
playbook and in the archive; and archival moves the very same references
(no bullet value is copied or altered) from the playbook onto the end of
the archive. -/
theorem C7_ownership_invariant (s : CuratorState) (h : Reachable s) :
    (∀ r : Nat, ¬(r ∈ s.playbook ∧ r ∈ s.archive)) ∧
    (∀ t : PyDateTime,
      (TemporalCurator.archive_stale_bullets s t).2.store = s.store ∧
      (TemporalCurator.archive_stale_bullets s t).2.archive
        = s.archive ++ (TemporalCurator.archive_stale_bullets s t).1.archived_bullets ∧
      (∀ r ∈ (TemporalCurator.archive_stale_bullets s t).1.archived_bullets,
        r ∈ s.playbook)) := by
  obtain ⟨i1, _, _⟩ := reachable_inv s h
  exact ⟨fun r hc => i1 r hc.2 hc.1,
    fun t => ⟨rfl, rfl, fun r hr => (List.mem_filter.mp hr).1⟩⟩

/-- Witness for C7 at a concrete reachable state: one merge applied to the
initial one-bullet playbook. -/
theorem C7_ownership_invariant_witness :
    ¬(0 ∈ (TemporalCurator.merge_delta ⟨[bA], List.range 1, [], 30⟩ [dZ] dtFeb10).1.playbook ∧
      0 ∈ (TemporalCurator.merge_delta ⟨[bA], List.range 1, [], 30⟩ [dZ] dtFeb10).1.archive) :=
  (C7_ownership_invariant _
    (Reachable.merge ⟨[bA], List.range 1, [], 30⟩ [dZ] dtFeb10 (Reachable.init [bA] 30))).1 0
